import Mathlib

/-!
Shallow embedding of `src/dashboard_with_Plotly_Dash/spacex_dash_app-kbs.py`:
a Plotly-Dash dashboard over a static launch-record table, with two pure
callback reducers (`update_pie_chart`, `update_scatter_chart`) and a layout
built from the loaded dataset (site dropdown, payload range slider).

Dataframe rows become a `Row` structure; the loaded dataframe (plus the
presence of the optional "Booster Version Category" column, which in pandas
is a property of the frame, not of a row) becomes `Dataset`.  Payload masses
are modelled as integers (`Int`); the source applies `int(...)` to the
payload bounds, which is the identity on integral values.  Chart figures are
modelled at the chart-specification level: a pie figure is its title and its
aggregated `(label, value)` segments, a scatter figure its title and its
point list.
-/

/-- One row of `spacex_df` (one launch record).  Column names:
"Flight Number", "Launch Site", "Payload Mass (kg)", "class",
"Booster Version Category". -/
structure Row where
  flightNumber : Nat
  launchSite : String
  payloadMass : Int
  outcomeClass : Nat
  boosterVersionCategory : String
deriving Repr, DecidableEq

/-- The loaded dataframe: its rows, plus whether the optional
"Booster Version Category" column is present (`"Booster Version Category"
in spacex_df.columns` in the source). -/
structure Dataset where
  rows : List Row
  hasBoosterVersionCategory : Bool
deriving Repr, DecidableEq

/-- The distinct values of a list in order of first appearance: the key
order produced by a pandas hashtable (`Series.unique`, and the key order of
`value_counts` before its sort).  Each head is kept and its later
occurrences are filtered out of the recursive result. -/
def distinctFirst {α : Type} [DecidableEq α] : List α → List α
  | [] => []
  | x :: xs => x :: (distinctFirst xs).filter (fun y => decide (y ≠ x))

/-- `Series.value_counts` before sorting: each distinct value (in first
appearance order) paired with its number of occurrences.  Values that do not
occur are absent. -/
def value_counts {α : Type} [DecidableEq α] (l : List α) : List (α × Nat) :=
  (distinctFirst l).map (fun v => (v, l.count v))

/-- `value_counts` as pandas returns it with `sort=True` (the default):
sorted by count, descending, stably. -/
def value_counts_sorted {α : Type} [DecidableEq α] (l : List α) : List (α × Nat) :=
  List.insertionSort (fun a b => b.2 ≤ a.2) (value_counts l)

/-- A pie chart specification: title and aggregated (label, value) segments.
For `px.pie(df, names=col)` with no `values`, the segments are the distinct
labels with their occurrence counts. -/
structure PieFigure where
  title : String
  segments : List (String × Nat)
deriving Repr, DecidableEq

/-- One scatter point: x = payload mass, y = outcome class, the optional
color (booster version category), and the hover annotations
(flight number, launch site). -/
structure ScatterPoint where
  x : Int
  y : Nat
  color : Option String
  flightNumber : Nat
  launchSite : String
deriving Repr, DecidableEq

/-- A scatter chart specification: title and point list. -/
structure ScatterFigure where
  title : String
  points : List ScatterPoint
deriving Repr, DecidableEq

/-- The dict `{1: "Success", 0: "Failure"}` used to relabel outcome classes
(total here; the source dict is defined on exactly the binary classes 0, 1). -/
def outcome_map (c : Nat) : String :=
  if c = 1 then "Success" else "Failure"

/-- Embedding of `update_pie_chart(selected_site)`.
If ALL: filter to `class == 1` rows and aggregate by "Launch Site".
Else: filter to the site's rows, `value_counts` the "class" column
(sorted descending by count, as pandas does), relabel 1/0 to
"Success"/"Failure". -/
def update_pie_chart (df : Dataset) (selected_site : String) : PieFigure :=
  if selected_site = "ALL" then
    let success_df := df.rows.filter (fun r => decide (r.outcomeClass = 1))
    { title := "Total Successful Launches by Site",
      segments := value_counts (success_df.map Row.launchSite) }
  else
    let filtered_df := df.rows.filter (fun r => decide (r.launchSite = selected_site))
    let outcome_counts := value_counts_sorted (filtered_df.map Row.outcomeClass)
    { title := "Launch Outcomes for " ++ selected_site,
      segments := outcome_counts.map (fun p => (outcome_map p.1, p.2)) }

/-- The point a surviving row is mapped to by
`px.scatter(filtered_df, x="Payload Mass (kg)", y="class", color=color_col,
hover_data=["Flight Number", "Launch Site"])`. -/
def pointOfRow (hasColor : Bool) (r : Row) : ScatterPoint :=
  { x := r.payloadMass, y := r.outcomeClass,
    color := if hasColor then some r.boosterVersionCategory else none,
    flightNumber := r.flightNumber, launchSite := r.launchSite }

/-- Embedding of `update_scatter_chart(selected_site, payload_range)`:
mask rows to payload mass between `low` and `high` (inclusive both ends,
pandas `Series.between`), then, if the site is not ALL, filter to the
matching site, then map rows to points. -/
def update_scatter_chart (df : Dataset) (selected_site : String)
    (payload_range : Int × Int) : ScatterFigure :=
  let low := payload_range.1
  let high := payload_range.2
  let filtered := df.rows.filter
    (fun r => decide (low ≤ r.payloadMass) && decide (r.payloadMass ≤ high))
  let filtered2 :=
    if selected_site ≠ "ALL" then
      filtered.filter (fun r => decide (r.launchSite = selected_site))
    else filtered
  { title := "Payload vs. Launch Outcome",
    points := filtered2.map (pointOfRow df.hasBoosterVersionCategory) }

/-- `spacex_df["Payload Mass (kg)"].min()` (0 on an empty table, where
pandas would give NaN; the dashboard's claims are about nonempty data). -/
def min_payload (df : Dataset) : Int :=
  match df.rows.map Row.payloadMass with
  | [] => 0
  | x :: xs => xs.foldl min x

/-- `spacex_df["Payload Mass (kg)"].max()` (0 on an empty table, where
pandas would give NaN). -/
def max_payload (df : Dataset) : Int :=
  match df.rows.map Row.payloadMass with
  | [] => 0
  | x :: xs => xs.foldl max x

/-- `sorted(spacex_df["Launch Site"].unique())`: distinct sites in first
appearance order, then sorted ascending. -/
def sortedUniqueSites (df : Dataset) : List String :=
  List.insertionSort (fun a b => a ≤ b) (distinctFirst (df.rows.map Row.launchSite))

/-- `site_options`: the ALL entry followed by one (label, value) entry per
sorted distinct site. -/
def site_options (df : Dataset) : List (String × String) :=
  ("All Sites", "ALL") :: (sortedUniqueSites df).map (fun s => (s, s))

/-- The `dcc.Dropdown` of the layout: its options and its default value. -/
structure DropdownSpec where
  options : List (String × String)
  value : String
deriving Repr, DecidableEq

/-- The `dcc.RangeSlider` of the layout: bounds, step, default value. -/
structure RangeSliderSpec where
  min : Int
  max : Int
  step : Int
  value : Int × Int
deriving Repr, DecidableEq

/-- The site dropdown as built in `app.layout` (`value="ALL"`). -/
def site_dropdown (df : Dataset) : DropdownSpec :=
  { options := site_options df, value := "ALL" }

/-- The payload slider as built in `app.layout`: bounds
`int(min_payload)`, `int(max_payload)` and default value
`[int(min_payload), int(max_payload)]` (`int` is the identity on the
integer payloads of the model). -/
def payload_slider (df : Dataset) : RangeSliderSpec :=
  { min := min_payload df, max := max_payload df, step := 100,
    value := (min_payload df, max_payload df) }

/-- The dataframe the pie chart is drawn from: `success_df`
(rows with `class == 1`) when ALL is selected, `filtered_df`
(rows of the selected site) otherwise. -/
def pieUnderlyingRows (df : Dataset) (selected_site : String) : List Row :=
  if selected_site = "ALL" then
    df.rows.filter (fun r => decide (r.outcomeClass = 1))
  else
    df.rows.filter (fun r => decide (r.launchSite = selected_site))

/-- A pie-reducer invocation with the dataset state threaded explicitly:
the figure together with the dataset left in memory afterwards.  The source
callback only reads `spacex_df` (every pandas operation it performs builds
fresh frames), so the post-state is the input dataset. -/
def invokePie (df : Dataset) (selected_site : String) : PieFigure × Dataset :=
  (update_pie_chart df selected_site, df)

/-- A scatter-reducer invocation with the dataset state threaded
explicitly. -/
def invokeScatter (df : Dataset) (selected_site : String)
    (payload_range : Int × Int) : ScatterFigure × Dataset :=
  (update_scatter_chart df selected_site payload_range, df)

/-- The 3-row dataset of the spec's concrete scenarios:
{(siteA, 500, 1), (siteA, 3000, 0), (siteB, 1000, 1)}. -/
def exampleDf : Dataset :=
  { rows :=
      [ { flightNumber := 1, launchSite := "siteA", payloadMass := 500,
          outcomeClass := 1, boosterVersionCategory := "v1" },
        { flightNumber := 2, launchSite := "siteA", payloadMass := 3000,
          outcomeClass := 0, boosterVersionCategory := "v1" },
        { flightNumber := 3, launchSite := "siteB", payloadMass := 1000,
          outcomeClass := 1, boosterVersionCategory := "v1" } ],
    hasBoosterVersionCategory := false }

/-! ### Helper lemmas about the aggregation primitives -/

theorem mem_distinctFirst {α : Type} [DecidableEq α] (a : α) :
    ∀ l : List α, a ∈ distinctFirst l ↔ a ∈ l
  | [] => Iff.rfl
  | x :: xs => by
    simp only [distinctFirst, List.mem_cons, List.mem_filter, decide_eq_true_eq,
      mem_distinctFirst a xs]
    by_cases h : a = x
    · simp [h]
    · simp [h]

theorem nodup_distinctFirst {α : Type} [DecidableEq α] :
    ∀ l : List α, (distinctFirst l).Nodup
  | [] => List.nodup_nil
  | x :: xs => by
    simp only [distinctFirst, List.nodup_cons]
    refine ⟨fun hmem => ?_, (nodup_distinctFirst xs).filter _⟩
    have := (List.mem_filter.mp hmem).2
    simp at this

theorem toFinset_distinctFirst {α : Type} [DecidableEq α] (l : List α) :
    (distinctFirst l).toFinset = l.toFinset := by
  ext a
  simp [List.mem_toFinset, mem_distinctFirst]

theorem sum_counts_distinctFirst {α : Type} [DecidableEq α] (l : List α) :
    ((distinctFirst l).map (fun v => l.count v)).sum = l.length := by
  have h1 := (List.sum_toFinset (fun v => l.count v) (nodup_distinctFirst l)).symm
  rw [h1, toFinset_distinctFirst, List.sum_toFinset_count_eq_length]

theorem distinctFirst_eq_singleton {α : Type} [DecidableEq α] {l : List α} {c : α}
    (hne : l ≠ []) (h : ∀ x ∈ l, x = c) : distinctFirst l = [c] := by
  cases l with
  | nil => exact absurd rfl hne
  | cons x xs =>
    have hx : x = c := h x (List.mem_cons_self x xs)
    have hfilter : (distinctFirst xs).filter (fun y => decide (y ≠ x)) = [] := by
      refine List.filter_eq_nil_iff.mpr fun a ha => ?_
      have ha2 : a ∈ xs := (mem_distinctFirst a xs).mp ha
      have : a = c := h a (List.mem_cons_of_mem _ ha2)
      simp [this, hx]
    show x :: (distinctFirst xs).filter (fun y => decide (y ≠ x)) = [c]
    rw [hfilter, hx]

theorem mem_value_counts {α : Type} [DecidableEq α] {l : List α} {p : α × Nat} :
    p ∈ value_counts l ↔ p.1 ∈ l ∧ p.2 = l.count p.1 := by
  constructor
  · intro hp
    rcases List.mem_map.mp hp with ⟨v, hv, heq⟩
    cases heq
    exact ⟨(mem_distinctFirst v l).mp hv, rfl⟩
  · rintro ⟨h1, h2⟩
    rcases p with ⟨a, n⟩
    exact List.mem_map.mpr ⟨a, (mem_distinctFirst a l).mpr h1, by simp_all⟩

theorem value_counts_fst {α : Type} [DecidableEq α] (l : List α) :
    (value_counts l).map Prod.fst = distinctFirst l := by
  simp [value_counts, List.map_map, Function.comp_def]

theorem value_counts_snd_sum {α : Type} [DecidableEq α] (l : List α) :
    ((value_counts l).map Prod.snd).sum = l.length := by
  have := sum_counts_distinctFirst l
  simpa [value_counts, List.map_map, Function.comp_def] using this

theorem value_counts_sorted_perm {α : Type} [DecidableEq α] (l : List α) :
    List.Perm (value_counts_sorted l) (value_counts l) :=
  List.perm_insertionSort _ _

theorem value_counts_sorted_snd_sum {α : Type} [DecidableEq α] (l : List α) :
    ((value_counts_sorted l).map Prod.snd).sum = l.length := by
  rw [((value_counts_sorted_perm l).map Prod.snd).sum_eq, value_counts_snd_sum]

/-! ### Helper lemmas about the fold-based payload bounds -/

theorem foldl_min_le {α : Type} [LinearOrder α] :
    ∀ (xs : List α) (a : α), xs.foldl min a ≤ a ∧ ∀ y ∈ xs, xs.foldl min a ≤ y
  | [], a => ⟨le_refl a, by simp⟩
  | x :: xs, a => by
    obtain ⟨h1, h2⟩ := foldl_min_le xs (min a x)
    have hred : (x :: xs).foldl min a = xs.foldl min (min a x) := rfl
    refine ⟨?_, fun y hy => ?_⟩
    · rw [hred]
      exact le_trans h1 (min_le_left a x)
    · rw [hred]
      rcases List.mem_cons.mp hy with rfl | hy
      · exact le_trans h1 (min_le_right a y)
      · exact h2 y hy

theorem foldl_min_mem {α : Type} [LinearOrder α] :
    ∀ (xs : List α) (a : α), xs.foldl min a = a ∨ xs.foldl min a ∈ xs
  | [], _ => Or.inl rfl
  | x :: xs, a => by
    have hred : (x :: xs).foldl min a = xs.foldl min (min a x) := rfl
    rcases foldl_min_mem xs (min a x) with h | h
    · rcases min_choice a x with hc | hc
      · exact Or.inl (by rw [hred, h, hc])
      · refine Or.inr ?_
        rw [hred, h, hc]
        exact List.mem_cons_self x xs
    · exact Or.inr (List.mem_cons_of_mem x h)

theorem le_foldl_max {α : Type} [LinearOrder α] :
    ∀ (xs : List α) (a : α), a ≤ xs.foldl max a ∧ ∀ y ∈ xs, y ≤ xs.foldl max a
  | [], a => ⟨le_refl a, by simp⟩
  | x :: xs, a => by
    obtain ⟨h1, h2⟩ := le_foldl_max xs (max a x)
    have hred : (x :: xs).foldl max a = xs.foldl max (max a x) := rfl
    refine ⟨?_, fun y hy => ?_⟩
    · rw [hred]
      exact le_trans (le_max_left a x) h1
    · rw [hred]
      rcases List.mem_cons.mp hy with rfl | hy
      · exact le_trans (le_max_right a y) h1
      · exact h2 y hy

theorem foldl_max_mem {α : Type} [LinearOrder α] :
    ∀ (xs : List α) (a : α), xs.foldl max a = a ∨ xs.foldl max a ∈ xs
  | [], _ => Or.inl rfl
  | x :: xs, a => by
    have hred : (x :: xs).foldl max a = xs.foldl max (max a x) := rfl
    rcases foldl_max_mem xs (max a x) with h | h
    · rcases max_choice a x with hc | hc
      · exact Or.inl (by rw [hred, h, hc])
      · refine Or.inr ?_
        rw [hred, h, hc]
        exact List.mem_cons_self x xs
    · exact Or.inr (List.mem_cons_of_mem x h)

theorem min_payload_le (df : Dataset) (r : Row) (hr : r ∈ df.rows) :
    min_payload df ≤ r.payloadMass := by
  rcases hdf : df.rows with _ | ⟨r0, rs⟩
  · simp [hdf] at hr
  · have hmap : df.rows.map Row.payloadMass = r0.payloadMass :: rs.map Row.payloadMass := by
      simp [hdf]
    rw [min_payload, hmap]
    rcases List.mem_cons.mp (hdf ▸ hr) with hcase | hcase
    · exact hcase ▸ (foldl_min_le (rs.map Row.payloadMass) r0.payloadMass).1
    · exact (foldl_min_le (rs.map Row.payloadMass) r0.payloadMass).2 _
        (List.mem_map.mpr ⟨r, hcase, rfl⟩)

theorem le_max_payload (df : Dataset) (r : Row) (hr : r ∈ df.rows) :
    r.payloadMass ≤ max_payload df := by
  rcases hdf : df.rows with _ | ⟨r0, rs⟩
  · simp [hdf] at hr
  · have hmap : df.rows.map Row.payloadMass = r0.payloadMass :: rs.map Row.payloadMass := by
      simp [hdf]
    rw [max_payload, hmap]
    rcases List.mem_cons.mp (hdf ▸ hr) with hcase | hcase
    · exact hcase ▸ (le_foldl_max (rs.map Row.payloadMass) r0.payloadMass).1
    · exact (le_foldl_max (rs.map Row.payloadMass) r0.payloadMass).2 _
        (List.mem_map.mpr ⟨r, hcase, rfl⟩)

theorem min_payload_attained (df : Dataset) (hne : df.rows ≠ []) :
    ∃ r ∈ df.rows, r.payloadMass = min_payload df := by
  rcases hdf : df.rows with _ | ⟨r0, rs⟩
  · exact absurd hdf hne
  · have hmap : df.rows.map Row.payloadMass = r0.payloadMass :: rs.map Row.payloadMass := by
      simp [hdf]
    rw [min_payload, hmap]
    rcases foldl_min_mem (rs.map Row.payloadMass) r0.payloadMass with h | h
    · exact ⟨r0, by simp [hdf], h.symm⟩
    · rcases List.mem_map.mp h with ⟨r, hr, hr2⟩
      exact ⟨r, by simp [hdf, hr], hr2⟩

theorem max_payload_attained (df : Dataset) (hne : df.rows ≠ []) :
    ∃ r ∈ df.rows, r.payloadMass = max_payload df := by
  rcases hdf : df.rows with _ | ⟨r0, rs⟩
  · exact absurd hdf hne
  · have hmap : df.rows.map Row.payloadMass = r0.payloadMass :: rs.map Row.payloadMass := by
      simp [hdf]
    rw [max_payload, hmap]
    rcases foldl_max_mem (rs.map Row.payloadMass) r0.payloadMass with h | h
    · exact ⟨r0, by simp [hdf], h.symm⟩
    · rcases List.mem_map.mp h with ⟨r, hr, hr2⟩
      exact ⟨r, by simp [hdf, hr], hr2⟩

/-! ### Claim theorems -/

/-- C4: for the concrete 3-row dataset {(siteA, 500, 1), (siteA, 3000, 0),
(siteB, 1000, 1)}, selecting site=ALL makes the pie reducer output the
segments [(siteA, 1), (siteB, 1)], and selecting site=siteA makes it output
the segments [("Success", 1), ("Failure", 1)]. -/
theorem pie_concrete_scenario :
    (update_pie_chart exampleDf "ALL").segments = [("siteA", 1), ("siteB", 1)] ∧
    (update_pie_chart exampleDf "siteA").segments =
      [("Success", 1), ("Failure", 1)] := by
  decide

/-- C7: both reducers are deterministic functions of (selection state,
dataset): invoking a reducer again, on the dataset state left behind by a
first invocation with the same inputs, yields the identical figure. -/
theorem reducers_deterministic (df : Dataset) (selected_site : String)
    (payload_range : Int × Int) :
    (invokePie (invokePie df selected_site).2 selected_site).1 =
      (invokePie df selected_site).1 ∧
    (invokeScatter (invokeScatter df selected_site payload_range).2
        selected_site payload_range).1 =
      (invokeScatter df selected_site payload_range).1 := by
  exact ⟨rfl, rfl⟩

/-- C9: neither reducer has side effects on the dataset: the dataset state
after an invocation equals the dataset before it, and every derived value
(payload bounds, sorted distinct sites) computed from the post-state equals
the one computed from the pre-state. -/
theorem reducers_no_side_effects (df : Dataset) (selected_site : String)
    (payload_range : Int × Int) :
    (invokePie df selected_site).2 = df ∧
    (invokeScatter df selected_site payload_range).2 = df ∧
    min_payload (invokePie df selected_site).2 = min_payload df ∧
    max_payload (invokePie df selected_site).2 = max_payload df ∧
    min_payload (invokeScatter df selected_site payload_range).2 = min_payload df ∧
    max_payload (invokeScatter df selected_site payload_range).2 = max_payload df ∧
    sortedUniqueSites (invokePie df selected_site).2 = sortedUniqueSites df ∧
    sortedUniqueSites (invokeScatter df selected_site payload_range).2 =
      sortedUniqueSites df := by
  exact ⟨rfl, rfl, rfl, rfl, rfl, rfl, rfl, rfl⟩

/-- C6 counterexample: on the 3-row example dataset, selecting site ALL with
the payload range (500, 3000) — exactly the dataset's full payload span —
gives a scatter output of 3 points, while the pie reducer's underlying
filtered row set (the success-only rows) has 2 rows, so the claimed
inequality fails for the ALL selection. -/
theorem scatter_le_pie_counterexample :
    (500 : Int) ≤ min_payload exampleDf ∧ max_payload exampleDf ≤ 3000 ∧
    ¬ ((update_scatter_chart exampleDf "ALL" (500, 3000)).points.length ≤
        (pieUnderlyingRows exampleDf "ALL").length) := by
  decide

/-- C6 amended: for every selection of a specific site (not the all-sites
sentinel), when the payload range covers the full dataset span, the number
of rows in the scatter reducer's output is at most the number of rows in
the pie reducer's underlying filtered row set for that site. -/
theorem scatter_le_pie_for_site (df : Dataset) (selected_site : String)
    (lo hi : Int) (hsite : selected_site ≠ "ALL")
    (hlo : lo ≤ min_payload df) (hhi : max_payload df ≤ hi) :
    (update_scatter_chart df selected_site (lo, hi)).points.length ≤
      (pieUnderlyingRows df selected_site).length := by
  simp only [update_scatter_chart, pieUnderlyingRows, List.length_map,
    List.filter_filter]
  rw [if_pos hsite, if_neg hsite]
  simp only [← List.countP_eq_length_filter]
  exact List.countP_mono_left fun r _ h => by
    simp only [Bool.and_eq_true, decide_eq_true_eq] at h ⊢
    exact h.1

/-- C6 amended, witness: the amended inequality at the example dataset,
site siteA, payload range (500, 3000) covering the full span. -/
theorem scatter_le_pie_for_site_witness :
    ("siteA" ≠ "ALL") ∧ ((500 : Int) ≤ min_payload exampleDf) ∧
    (max_payload exampleDf ≤ 3000) ∧
    (update_scatter_chart exampleDf "siteA" (500, 3000)).points.length ≤
      (pieUnderlyingRows exampleDf "siteA").length :=
  ⟨by decide, by decide, by decide,
    scatter_le_pie_for_site exampleDf "siteA" 500 3000
      (by decide) (by decide) (by decide)⟩

/-- C5: for every selected site that is neither the all-sites sentinel nor
present in the dataset's site set, the pie reducer returns a chart with zero
segments and the scatter reducer returns a chart with zero points (both are
total functions, so neither fails). -/
theorem unknown_site_empty_charts (df : Dataset) (selected_site : String)
    (payload_range : Int × Int) (hsite : selected_site ≠ "ALL")
    (hunknown : ∀ r ∈ df.rows, r.launchSite ≠ selected_site) :
    (update_pie_chart df selected_site).segments = [] ∧
    (update_scatter_chart df selected_site payload_range).points = [] := by
  have hpie : df.rows.filter (fun r => decide (r.launchSite = selected_site)) = [] :=
    List.filter_eq_nil_iff.mpr fun r hr => by simp [hunknown r hr]
  constructor
  · simp [update_pie_chart, if_neg hsite, hpie, value_counts_sorted, value_counts,
      distinctFirst]
  · simp only [update_scatter_chart, if_pos hsite, List.map_eq_nil_iff]
    refine List.filter_eq_nil_iff.mpr fun r hr => ?_
    have : r ∈ df.rows := (List.mem_filter.mp hr).1
    simp [hunknown r this]

/-- C5 witness: the unknown site "siteC" on the example dataset yields an
empty pie chart and an empty scatter chart. -/
theorem unknown_site_empty_charts_witness :
    ("siteC" ≠ "ALL") ∧ (∀ r ∈ exampleDf.rows, r.launchSite ≠ "siteC") ∧
    (update_pie_chart exampleDf "siteC").segments = [] ∧
    (update_scatter_chart exampleDf "siteC" (0, 5000)).points = [] :=
  ⟨by decide, by decide,
    unknown_site_empty_charts exampleDf "siteC" (0, 5000) (by decide) (by decide)⟩

/-- C2: when the all-sites sentinel is selected, the pie reducer filters to
rows with outcome class 1 and groups them by launch site: the segment
labels are pairwise distinct, a site appears as a label exactly when the
dataset has a successful row at that site, each segment's value is the
number of successful rows at its site, and the number of segments equals
the number of distinct sites with at least one success. -/
theorem pie_all_groups_success_by_site (df : Dataset) :
    ((update_pie_chart df "ALL").segments.map Prod.fst).Nodup ∧
    (∀ s : String, s ∈ (update_pie_chart df "ALL").segments.map Prod.fst ↔
      ∃ r ∈ df.rows, r.outcomeClass = 1 ∧ r.launchSite = s) ∧
    (∀ p ∈ (update_pie_chart df "ALL").segments,
      p.2 = (df.rows.filter
        (fun r => decide (r.outcomeClass = 1 ∧ r.launchSite = p.1))).length) ∧
    (update_pie_chart df "ALL").segments.length =
      ((df.rows.filter (fun r => decide (r.outcomeClass = 1))).map
        Row.launchSite).toFinset.card := by
  have hseg : (update_pie_chart df "ALL").segments =
      value_counts ((df.rows.filter (fun r => decide (r.outcomeClass = 1))).map
        Row.launchSite) := rfl
  refine ⟨?_, ?_, ?_, ?_⟩
  · rw [hseg, value_counts_fst]
    exact nodup_distinctFirst _
  · intro s
    rw [hseg, value_counts_fst, mem_distinctFirst]
    simp only [List.mem_map, List.mem_filter, decide_eq_true_eq]
    constructor
    · rintro ⟨r, ⟨hr, hc⟩, hs⟩
      exact ⟨r, hr, hc, hs⟩
    · rintro ⟨r, hr, hc, hs⟩
      exact ⟨r, ⟨hr, hc⟩, hs⟩
  · intro p hp
    rw [hseg] at hp
    obtain ⟨hmem, hcount⟩ := mem_value_counts.mp hp
    rw [hcount, List.count, List.countP_map, List.countP_filter,
      ← List.countP_eq_length_filter]
    refine List.countP_congr fun r _ => ?_
    simp only [Function.comp_apply, Bool.and_eq_true, beq_iff_eq,
      decide_eq_true_eq]
    exact ⟨fun h => ⟨h.2, h.1⟩, fun h => ⟨h.2, h.1⟩⟩
  · rw [hseg, value_counts, List.length_map, ← toFinset_distinctFirst,
      List.toFinset_card_of_nodup (nodup_distinctFirst _)]

/-- Counting one outcome class in the mapped "class" column of a site's
rows equals the number of rows matching both the site and that class. -/
theorem count_classes_eq {df : Dataset} {site : String} (c : Nat) :
    ((df.rows.filter (fun r => decide (r.launchSite = site))).map
        Row.outcomeClass).count c =
      (df.rows.filter
        (fun r => decide (r.launchSite = site ∧ r.outcomeClass = c))).length := by
  rw [List.count, List.countP_map, List.countP_filter,
    ← List.countP_eq_length_filter]
  refine List.countP_congr fun r _ => ?_
  simp only [Function.comp_apply, Bool.and_eq_true, beq_iff_eq,
    decide_eq_true_eq]
  exact ⟨fun h => ⟨h.2, h.1⟩, fun h => ⟨h.2, h.1⟩⟩

/-- C3: when a specific site is selected, the pie reducer's title contains
the site name, every segment is labeled "Success" or "Failure", a "Success"
segment's value is the site's success count and a "Failure" segment's value
is the site's failure count, and the segment values sum to the number of
rows for that site; for the all-sites selection the segment values sum to
the success-only row count. -/
theorem pie_site_success_failure (df : Dataset) (selected_site : String)
    (hsite : selected_site ≠ "ALL")
    (hbin : ∀ r ∈ df.rows, r.outcomeClass = 0 ∨ r.outcomeClass = 1) :
    (update_pie_chart df selected_site).title =
      "Launch Outcomes for " ++ selected_site ∧
    (∀ p ∈ (update_pie_chart df selected_site).segments,
      p.1 = "Success" ∨ p.1 = "Failure") ∧
    (∀ p ∈ (update_pie_chart df selected_site).segments,
      (p.1 = "Success" → p.2 = (df.rows.filter
        (fun r => decide (r.launchSite = selected_site ∧ r.outcomeClass = 1))).length) ∧
      (p.1 = "Failure" → p.2 = (df.rows.filter
        (fun r => decide (r.launchSite = selected_site ∧ r.outcomeClass = 0))).length)) ∧
    ((update_pie_chart df selected_site).segments.map Prod.snd).sum =
      (df.rows.filter (fun r => decide (r.launchSite = selected_site))).length ∧
    ((update_pie_chart df "ALL").segments.map Prod.snd).sum =
      (df.rows.filter (fun r => decide (r.outcomeClass = 1))).length := by
  have hfig : update_pie_chart df selected_site =
      { title := "Launch Outcomes for " ++ selected_site,
        segments := (value_counts_sorted
            ((df.rows.filter (fun r => decide (r.launchSite = selected_site))).map
              Row.outcomeClass)).map (fun p => (outcome_map p.1, p.2)) } := by
    simp only [update_pie_chart, if_neg hsite]
  refine ⟨by rw [hfig], ?_, ?_, ?_, ?_⟩
  · intro p hp
    rw [hfig] at hp
    rcases List.mem_map.mp hp with ⟨v, hv, rfl⟩
    by_cases h1 : v.1 = 1
    · exact Or.inl (by simp [outcome_map, h1])
    · exact Or.inr (by simp [outcome_map, h1])
  · intro p hp
    rw [hfig] at hp
    rcases List.mem_map.mp hp with ⟨v, hv, rfl⟩
    have hv2 := (value_counts_sorted_perm
      ((df.rows.filter (fun r => decide (r.launchSite = selected_site))).map
        Row.outcomeClass)).mem_iff.mp hv
    obtain ⟨hvmem, hvcount⟩ := mem_value_counts.mp hv2
    constructor
    · intro hs
      have h1 : v.1 = 1 := by
        by_contra h1
        have hfail : outcome_map v.1 = "Failure" := by simp [outcome_map, h1]
        rw [show ((outcome_map v.1, v.2) : String × Nat).1 = outcome_map v.1 from rfl,
          hfail] at hs
        exact absurd hs (by decide)
      show v.2 = _
      rw [hvcount, h1]
      exact count_classes_eq 1
    · intro hs
      have h1 : v.1 ≠ 1 := by
        intro h1
        have hsucc : outcome_map v.1 = "Success" := by simp [outcome_map, h1]
        rw [show ((outcome_map v.1, v.2) : String × Nat).1 = outcome_map v.1 from rfl,
          hsucc] at hs
        exact absurd hs (by decide)
      have h0 : v.1 = 0 := by
        rcases List.mem_map.mp hvmem with ⟨r, hr, hrc⟩
        have hrrows : r ∈ df.rows := (List.mem_filter.mp hr).1
        rcases hbin r hrrows with h | h
        · exact hrc ▸ h
        · exact absurd (hrc ▸ h) h1
      show v.2 = _
      rw [hvcount, h0]
      exact count_classes_eq 0
  · rw [hfig]
    simp only [List.map_map]
    have hcomp : (Prod.snd ∘ fun p : Nat × Nat => (outcome_map p.1, p.2)) =
        (Prod.snd : Nat × Nat → Nat) := rfl
    rw [hcomp, value_counts_sorted_snd_sum, List.length_map]
  · have hseg : (update_pie_chart df "ALL").segments =
        value_counts ((df.rows.filter (fun r => decide (r.outcomeClass = 1))).map
          Row.launchSite) := rfl
    rw [hseg, value_counts_snd_sum, List.length_map]

/-- C3 witness: the specific-site characterization instantiated at the
example dataset and site siteA. -/
theorem pie_site_success_failure_witness :
    (("siteA" : String) ≠ "ALL") ∧
    (∀ r ∈ exampleDf.rows, r.outcomeClass = 0 ∨ r.outcomeClass = 1) ∧
    ((update_pie_chart exampleDf "siteA").title =
      "Launch Outcomes for " ++ "siteA" ∧
    (∀ p ∈ (update_pie_chart exampleDf "siteA").segments,
      p.1 = "Success" ∨ p.1 = "Failure") ∧
    (∀ p ∈ (update_pie_chart exampleDf "siteA").segments,
      (p.1 = "Success" → p.2 = (exampleDf.rows.filter
        (fun r => decide (r.launchSite = "siteA" ∧ r.outcomeClass = 1))).length) ∧
      (p.1 = "Failure" → p.2 = (exampleDf.rows.filter
        (fun r => decide (r.launchSite = "siteA" ∧ r.outcomeClass = 0))).length)) ∧
    ((update_pie_chart exampleDf "siteA").segments.map Prod.snd).sum =
      (exampleDf.rows.filter (fun r => decide (r.launchSite = "siteA"))).length ∧
    ((update_pie_chart exampleDf "ALL").segments.map Prod.snd).sum =
      (exampleDf.rows.filter (fun r => decide (r.outcomeClass = 1))).length) :=
  ⟨by decide, by decide,
    pie_site_success_failure exampleDf "siteA" (by decide) (by decide)⟩

/-- C10: for a selected site present in the dataset all of whose rows have
the same outcome class `c` (all successes or all failures), the
specific-site pie output is the single segment for the outcome that occurs,
valued at the site's row count; no zero-count segment is emitted. -/
theorem pie_uniform_outcome_single_segment (df : Dataset) (selected_site : String)
    (c : Nat) (hsite : selected_site ≠ "ALL") (hc : c = 0 ∨ c = 1)
    (hpresent : ∃ r ∈ df.rows, r.launchSite = selected_site)
    (huniform : ∀ r ∈ df.rows, r.launchSite = selected_site → r.outcomeClass = c) :
    (update_pie_chart df selected_site).segments =
      [(outcome_map c,
        (df.rows.filter (fun r => decide (r.launchSite = selected_site))).length)] := by
  have hfig : (update_pie_chart df selected_site).segments =
      (value_counts_sorted
          ((df.rows.filter (fun r => decide (r.launchSite = selected_site))).map
            Row.outcomeClass)).map (fun p => (outcome_map p.1, p.2)) := by
    simp only [update_pie_chart, if_neg hsite]
  obtain ⟨r0, hr0, hr0site⟩ := hpresent
  have hr0f : r0 ∈ df.rows.filter (fun r => decide (r.launchSite = selected_site)) :=
    List.mem_filter.mpr ⟨hr0, by simp [hr0site]⟩
  have hallc : ∀ x ∈ (df.rows.filter
      (fun r => decide (r.launchSite = selected_site))).map Row.outcomeClass, x = c := by
    intro x hx
    rcases List.mem_map.mp hx with ⟨r, hr, rfl⟩
    have hrr := List.mem_filter.mp hr
    exact huniform r hrr.1 (by simpa using hrr.2)
  have hne2 : (df.rows.filter
      (fun r => decide (r.launchSite = selected_site))).map Row.outcomeClass ≠ [] :=
    List.ne_nil_of_mem (List.mem_map.mpr ⟨r0, hr0f, rfl⟩)
  have hdf : distinctFirst ((df.rows.filter
      (fun r => decide (r.launchSite = selected_site))).map Row.outcomeClass) = [c] :=
    distinctFirst_eq_singleton hne2 hallc
  have hcount : ((df.rows.filter
      (fun r => decide (r.launchSite = selected_site))).map Row.outcomeClass).count c =
      ((df.rows.filter
        (fun r => decide (r.launchSite = selected_site))).map Row.outcomeClass).length :=
    List.count_eq_length.mpr fun b hb => (hallc b hb).symm
  rw [hfig, value_counts_sorted, value_counts, hdf]
  simp [List.insertionSort, List.orderedInsert, hcount]

/-- C10 witness: on the example dataset, siteB's only row is a success, and
the pie output for siteB is the single segment ("Success", 1). -/
theorem pie_uniform_outcome_single_segment_witness :
    (("siteB" : String) ≠ "ALL") ∧ ((1 : Nat) = 0 ∨ (1 : Nat) = 1) ∧
    (∃ r ∈ exampleDf.rows, r.launchSite = "siteB") ∧
    (∀ r ∈ exampleDf.rows, r.launchSite = "siteB" → r.outcomeClass = 1) ∧
    (update_pie_chart exampleDf "siteB").segments =
      [(outcome_map 1,
        (exampleDf.rows.filter (fun r => decide (r.launchSite = "siteB"))).length)] :=
  ⟨by decide, by decide, by decide, by decide,
    pie_uniform_outcome_single_segment exampleDf "siteB" 1 (by decide) (by decide)
      (by decide) (by decide)⟩

/-- C1: for every site selection and payload range [lo, hi] with lo ≤ hi,
the scatter output consists of exactly the dataset rows whose payload mass
lies within [lo, hi] inclusive (restricted to the selected site when the
selection is not the all-sites sentinel), each mapped to the point with
x = payload mass and y = outcome class; and on the example dataset with
range [0, 1000] and site ALL the points are (500, 1, siteA) and
(1000, 1, siteB), the row at payload 3000 being excluded. -/
theorem scatter_points_exactly_range (df : Dataset) (selected_site : String)
    (lo hi : Int) (h : lo ≤ hi) :
    (∀ p : ScatterPoint,
      p ∈ (update_scatter_chart df selected_site (lo, hi)).points ↔
        ∃ r ∈ df.rows, lo ≤ r.payloadMass ∧ r.payloadMass ≤ hi ∧
          (selected_site = "ALL" ∨ r.launchSite = selected_site) ∧
          p = pointOfRow df.hasBoosterVersionCategory r) ∧
    (update_scatter_chart exampleDf "ALL" (0, 1000)).points.map
      (fun p => (p.x, p.y, p.launchSite)) =
      [(500, 1, "siteA"), (1000, 1, "siteB")] := by
  refine ⟨fun p => ?_, by decide⟩
  by_cases hs : selected_site = "ALL"
  · subst hs
    have hpts : (update_scatter_chart df "ALL" (lo, hi)).points =
        (df.rows.filter (fun r =>
          decide (lo ≤ r.payloadMass) && decide (r.payloadMass ≤ hi))).map
          (pointOfRow df.hasBoosterVersionCategory) := rfl
    rw [hpts]
    simp only [List.mem_map, List.mem_filter, Bool.and_eq_true, decide_eq_true_eq]
    constructor
    · rintro ⟨r, ⟨hr, h1, h2⟩, heq⟩
      exact ⟨r, hr, h1, h2, Or.inl trivial, heq.symm⟩
    · rintro ⟨r, hr, h1, h2, hor, rfl⟩
      exact ⟨r, ⟨hr, h1, h2⟩, rfl⟩
  · have hpts : (update_scatter_chart df selected_site (lo, hi)).points =
        ((df.rows.filter (fun r =>
          decide (lo ≤ r.payloadMass) && decide (r.payloadMass ≤ hi))).filter
            (fun r => decide (r.launchSite = selected_site))).map
          (pointOfRow df.hasBoosterVersionCategory) := by
      simp only [update_scatter_chart]
      rw [if_pos hs]
    rw [hpts]
    simp only [List.mem_map, List.mem_filter, Bool.and_eq_true, decide_eq_true_eq]
    constructor
    · rintro ⟨r, ⟨⟨hr, h1, h2⟩, h3⟩, heq⟩
      exact ⟨r, hr, h1, h2, Or.inr h3, heq.symm⟩
    · rintro ⟨r, hr, h1, h2, hor, rfl⟩
      rcases hor with hor | hor
      · exact absurd hor hs
      · exact ⟨r, ⟨⟨hr, h1, h2⟩, hor⟩, rfl⟩

/-- C1 witness: the characterization instantiated on the example dataset
with site ALL and range [0, 1000]. -/
theorem scatter_points_exactly_range_witness :
    ((0 : Int) ≤ 1000) ∧
    ((∀ p : ScatterPoint,
      p ∈ (update_scatter_chart exampleDf "ALL" (0, 1000)).points ↔
        ∃ r ∈ exampleDf.rows, 0 ≤ r.payloadMass ∧ r.payloadMass ≤ 1000 ∧
          (("ALL" : String) = "ALL" ∨ r.launchSite = "ALL") ∧
          p = pointOfRow exampleDf.hasBoosterVersionCategory r) ∧
    (update_scatter_chart exampleDf "ALL" (0, 1000)).points.map
      (fun p => (p.x, p.y, p.launchSite)) =
      [(500, 1, "siteA"), (1000, 1, "siteB")]) :=
  ⟨by decide, scatter_points_exactly_range exampleDf "ALL" 0 1000 (by decide)⟩

/-- C8: the UI controls are built from the loaded dataset: the dropdown
defaults to the ALL sentinel and its option values are the sentinel
followed by the dataset's distinct site names in sorted order (sorted,
duplicate-free, containing exactly the sites occurring in the dataset);
the payload slider's bounds are the dataset's minimum and maximum payload
mass (each attained by some row and bounding every row) and its default
value is the full range. -/
theorem layout_built_from_dataset (df : Dataset) (hne : df.rows ≠ []) :
    (site_dropdown df).value = "ALL" ∧
    ((site_dropdown df).options.map Prod.snd).head? = some "ALL" ∧
    List.Sorted (fun a b : String => a ≤ b)
      ((site_dropdown df).options.map Prod.snd).tail ∧
    (((site_dropdown df).options.map Prod.snd).tail).Nodup ∧
    (∀ s : String, s ∈ ((site_dropdown df).options.map Prod.snd).tail ↔
      ∃ r ∈ df.rows, r.launchSite = s) ∧
    (payload_slider df).value = ((payload_slider df).min, (payload_slider df).max) ∧
    (∀ r ∈ df.rows, (payload_slider df).min ≤ r.payloadMass ∧
      r.payloadMass ≤ (payload_slider df).max) ∧
    (∃ r ∈ df.rows, r.payloadMass = (payload_slider df).min) ∧
    (∃ r ∈ df.rows, r.payloadMass = (payload_slider df).max) := by
  have htail : ((site_dropdown df).options.map Prod.snd).tail =
      sortedUniqueSites df := by
    simp [site_dropdown, site_options, List.map_map, Function.comp_def]
  refine ⟨rfl, rfl, ?_, ?_, ?_, rfl, ?_, ?_, ?_⟩
  · rw [htail]
    exact List.sorted_insertionSort _ _
  · rw [htail, sortedUniqueSites]
    exact (List.perm_insertionSort _ _).nodup_iff.mpr (nodup_distinctFirst _)
  · intro s
    rw [htail, sortedUniqueSites, List.mem_insertionSort, mem_distinctFirst]
    simp only [List.mem_map]
  · exact fun r hr => ⟨min_payload_le df r hr, le_max_payload df r hr⟩
  · exact min_payload_attained df hne
  · exact max_payload_attained df hne

/-- C8 witness: the layout characterization instantiated on the (nonempty)
example dataset. -/
theorem layout_built_from_dataset_witness :
    (exampleDf.rows ≠ []) ∧
    ((site_dropdown exampleDf).value = "ALL" ∧
    ((site_dropdown exampleDf).options.map Prod.snd).head? = some "ALL" ∧
    List.Sorted (fun a b : String => a ≤ b)
      ((site_dropdown exampleDf).options.map Prod.snd).tail ∧
    (((site_dropdown exampleDf).options.map Prod.snd).tail).Nodup ∧
    (∀ s : String, s ∈ ((site_dropdown exampleDf).options.map Prod.snd).tail ↔
      ∃ r ∈ exampleDf.rows, r.launchSite = s) ∧
    (payload_slider exampleDf).value =
      ((payload_slider exampleDf).min, (payload_slider exampleDf).max) ∧
    (∀ r ∈ exampleDf.rows, (payload_slider exampleDf).min ≤ r.payloadMass ∧
      r.payloadMass ≤ (payload_slider exampleDf).max) ∧
    (∃ r ∈ exampleDf.rows, r.payloadMass = (payload_slider exampleDf).min) ∧
    (∃ r ∈ exampleDf.rows, r.payloadMass = (payload_slider exampleDf).max)) :=
  ⟨by decide, layout_built_from_dataset exampleDf (by decide)⟩
